import Mathlib

/-
Verification of the landmark-synchronized transform engine
(torchlm, src/torchlm/transfroms/transforms.py).

Shallow embedding conventions:
* Landmark coordinates and pixel-value arithmetic are modelled over ℚ
  (Python floats / np.float32 modelled exactly; the spec grants
  floating-point tolerance, the rational model is exact).
* An image buffer (H x W x C, uint8) is a list of rows, each row a list
  of pixels, each pixel a list of channel values in ℕ; `astype(np.uint8)`
  is truncation mod 256.
* Stateful transform objects are modelled by explicit state passing of
  their affine record; a Python exception is `Except.error`.
* Process-wide random draws are explicit arguments.
* External collaborators that are absent from the source tree
  (cv2 / the `functional` helper module) are either taken as function
  parameters (pixel-level image warps, whose content the claims never
  inspect) or modelled from the spec (the landmark/box helpers), each
  marked in its doc comment.
-/

abbrev Coord := ℚ

abbrev Landmarks := List (Coord × Coord)

/-- One pixel: the list of its channel values. -/
abbrev Pix := List ℕ

/-- Image buffer: rows of pixels (axes height, width, channel). -/
abbrev NpImage := List (List Pix)

/-- Shape component `img.shape[0]`. -/
def npHeight (img : NpImage) : ℕ := img.length

/-- Shape component `img.shape[1]`. -/
def npWidth (img : NpImage) : ℕ := (img.headD []).length

/-- Embedding of `ndarray.astype(np.uint8)`: every channel value is
truncated to 8 bits. -/
def astypeU8 (img : NpImage) : NpImage :=
  img.map (fun row => row.map (fun px => px.map (fun c => c % 256)))

/-- Well-formed 8-bit image: every channel value already fits in a byte
(the data model fixes image buffers to 8-bit unsigned channels). -/
def NpWf (img : NpImage) : Prop :=
  ∀ row ∈ img, ∀ px ∈ row, ∀ c ∈ px, c < 256

instance (img : NpImage) : Decidable (NpWf img) := by
  unfold NpWf; infer_instance

/-- Python float truncation `int(x)` (toward zero). -/
def pyInt (q : ℚ) : ℤ :=
  if 0 ≤ q then Rat.floor q else -Rat.floor (-q)

/-- Affine record kept by every `LandmarksTransform`
(transforms.py, lines 116-123; the unrelated `is_numpy` attribute is
never read elsewhere in the module and is omitted). -/
structure AffineRecord where
  rotate : ℚ
  scale_x : ℚ
  scale_y : ℚ
  trans_x : ℚ
  trans_y : ℚ
  flag : Bool
deriving Repr, DecidableEq

/-- Record state set by `LandmarksTransform.__init__`. -/
def AffineRecord.init : AffineRecord :=
  { rotate := 0, scale_x := 1, scale_y := 1, trans_x := 0, trans_y := 0, flag := false }

/-- `LandmarksTransform.clear_affine` (lines 159-165). -/
def clear_affine (_st : AffineRecord) : AffineRecord :=
  { rotate := 0, scale_x := 1, scale_y := 1, trans_x := 0, trans_y := 0, flag := false }

/-- `LandmarksTransform.apply_affine_to` (lines 139-157): in-place
column updates on the landmark matrix become a map over the point list;
the `rotate` branch of the source is `pass`. -/
def apply_affine_to (st : AffineRecord) (other_landmarks : Landmarks)
    (scale translate rotate : Bool) : Landmarks :=
  let pts1 :=
    if translate then
      other_landmarks.map (fun p => (p.1 - st.trans_x, p.2 - st.trans_y))
    else other_landmarks
  let pts2 :=
    if scale then
      pts1.map (fun p => (p.1 * st.scale_x, p.2 * st.scale_y))
    else pts1
  -- if rotate: pass (TODO in source, not implemented)
  let _ := rotate
  pts2

/-- Elementwise pixel-value map over a float image. -/
def pixMap (f : ℚ → ℚ) (img : List (List (List ℚ))) : List (List (List ℚ)) :=
  img.map (fun row => row.map (fun px => px.map f))

/-- Float image buffer (after `astype(np.float32)`). -/
abbrev QImage := List (List (List ℚ))

/-- `LandmarksNormalize.__call__` (lines 375-386): `(img - mean) / std`,
landmarks only pass through `astype(np.float32)`. -/
def landmarksNormalize (mean std : ℚ) (st : AffineRecord)
    (img : QImage) (landmarks : Landmarks) :
    AffineRecord × QImage × Landmarks :=
  ({ st with flag := true }, pixMap (fun v => (v - mean) / std) img, landmarks)

/-- `LandmarksUnNormalize.__call__` (lines 400-412): `img * std + mean`,
landmarks only pass through `astype(np.float32)`. -/
def landmarksUnNormalize (mean std : ℚ) (st : AffineRecord)
    (img : QImage) (landmarks : Landmarks) :
    AffineRecord × QImage × Landmarks :=
  ({ st with flag := true }, pixMap (fun v => v * std + mean) img, landmarks)

/-! Pipeline orchestrator (`LandmarksCompose`, lines 274-362).
A child transform is modelled as a function from an (image, landmarks)
pair to either a raised exception or the new pair together with the
child's `flag` attribute after the call. -/

/-- A child transform as the orchestrator sees it. -/
abbrev Tr := NpImage × Landmarks → Except String (NpImage × Landmarks × Bool)

/-- `LandmarksCompose.__call__` (lines 291-308): `self.flags.clear()`,
then for each child in order run it inside try/except; an exception is
logged and `continue`s the loop without touching `img`/`landmarks` and
WITHOUT appending to `self.flags`; on success the new pair is kept and
the child's `flag` is appended. Returns the final pair and the rebuilt
flag list. -/
def composeApply : List Tr → NpImage × Landmarks → (NpImage × Landmarks) × List Bool
  | [], p => (p, [])
  | t :: ts, p =>
    match t p with
    | .error _ => composeApply ts p
    | .ok (i, l, fl) =>
      let r := composeApply ts (i, l)
      (r.1, fl :: r.2)

/-- Number of children that raised during the run of
`LandmarksCompose.__call__` from pair `p` (same traversal as
`composeApply`). -/
def composeFailCount : List Tr → NpImage × Landmarks → ℕ
  | [], _ => 0
  | t :: ts, p =>
    match t p with
    | .error _ => composeFailCount ts p + 1
    | .ok (i, l, _) => composeFailCount ts (i, l)

/-- `LandmarksCompose.apply_transform_to` (lines 310-324): zip the
children with the recorded flags; re-invoke a child only when its flag
is true; an exception during re-invocation is caught and the previous
pair is kept. -/
def applyTransformTo : List Tr → List Bool → NpImage × Landmarks → NpImage × Landmarks
  | t :: ts, fl :: flags, p =>
    if fl then
      match t p with
      | .error _ => applyTransformTo ts flags p
      | .ok (i, l, _) => applyTransformTo ts flags (i, l)
    else applyTransformTo ts flags p
  | _, _, p => p

/-- The subsequence of children whose recorded flag is true (in order). -/
def selectTrue : List Tr → List Bool → List Tr
  | t :: ts, fl :: flags => if fl then t :: selectTrue ts flags else selectTrue ts flags
  | _, _ => []

/-- Run a list of children sequentially with per-step failure isolation
(a failing step keeps the previous pair). -/
def runIsolated : List Tr → NpImage × Landmarks → NpImage × Landmarks
  | [], p => p
  | t :: ts, p =>
    match t p with
    | .error _ => runIsolated ts p
    | .ok (i, l, _) => runIsolated ts (i, l)

/-! Type-adaptation boundary (`autodtye_array` / `autodtye_tensor`,
lines 49-110). A buffer carries its representation tag and an opaque
payload; `F.to_numpy` / `F.to_tensor` (absent from src) only switch the
representation. Modelled from the spec: the Type-Adaptation Boundary
"converts between two buffer representations (array-like vs
tensor-like) transparently", so conversion keeps the payload. -/

/-- Buffer representation of an argument: numpy array, torch tensor, or
anything else (which the wrappers' assert rejects). -/
inductive BufRep where
  | nparray
  | tensor
  | other
deriving Repr, DecidableEq

/-- A caller-supplied buffer: representation tag plus opaque payload. -/
structure Buf where
  rep : BufRep
  val : ℕ
deriving Repr, DecidableEq

/-- Modelled from the spec: `F.to_numpy` of the external conversion
layer switches the representation to numpy, keeping the content. -/
def to_numpy (b : Buf) : Buf := { b with rep := BufRep.nparray }

/-- Modelled from the spec: `F.to_tensor` of the external conversion
layer switches the representation to tensor, keeping the content. -/
def to_tensor (b : Buf) : Buf := { b with rep := BufRep.tensor }

/-- `autodtye_array` wrapper (lines 49-78): assert both arguments are
ndarray-or-Tensor (an `AssertionError` otherwise); if either one is a
Tensor, convert BOTH to numpy, run the wrapped function, convert both
results to tensors; else run the wrapped function directly. -/
def autodtye_array (f : Buf × Buf → Buf × Buf) (img landmarks : Buf) :
    Except String (Buf × Buf) :=
  if img.rep = BufRep.other ∨ landmarks.rep = BufRep.other then
    .error "Error dtype, must be np.ndarray or Tensor!"
  else if img.rep = BufRep.tensor ∨ landmarks.rep = BufRep.tensor then
    let r := f (to_numpy img, to_numpy landmarks)
    .ok (to_tensor r.1, to_tensor r.2)
  else
    .ok (f (img, landmarks))

/-- `autodtye_tensor` wrapper (lines 81-110): same assert; if either
argument is a numpy array, convert BOTH to tensors, run the wrapped
function, convert both results back to numpy; else run directly. -/
def autodtye_tensor (f : Buf × Buf → Buf × Buf) (img landmarks : Buf) :
    Except String (Buf × Buf) :=
  if img.rep = BufRep.other ∨ landmarks.rep = BufRep.other then
    .error "Error dtype, must be np.ndarray or Tensor!"
  else if img.rep = BufRep.nparray ∨ landmarks.rep = BufRep.nparray then
    let r := f (to_tensor img, to_tensor landmarks)
    .ok (to_numpy r.1, to_numpy r.2)
  else
    .ok (f (img, landmarks))

/-- `LandmarksHorizontalFlip.__call__` (lines 815-831): reverse the
pixel columns of every row (`img[:, ::-1, :]`), move every x-coordinate
by `x += 2 * (cx - x)` with `cx = w / 2`, leave y untouched, set the
applied flag. -/
def landmarksHorizontalFlip (st : AffineRecord)
    (img : NpImage) (landmarks : Landmarks) :
    AffineRecord × NpImage × Landmarks :=
  let cx : ℚ := (npWidth img : ℚ) / 2
  let new_img := img.map List.reverse
  let new_landmarks := landmarks.map (fun p => (p.1 + 2 * (cx - p.1), p.2))
  ({ st with flag := true }, astypeU8 new_img, new_landmarks)

/-! Geometry helpers used by the geometric transforms. The module
`torchlm/transfroms/functional.py` (imported as `F`) is not part of the
provided sources, so the landmark/box helpers below are modelled from
the spec (section 4.1), and the pixel-level warps (`cv2.resize`,
`F.rotate_im`, `F.rotate_box`, `F.letterbox_image*`) are taken as
function parameters of the transforms: no claim inspects their output
beyond its shape-independent role. -/

/-- Enclosing box (x_min, y_min, x_max, y_max). -/
structure Box where
  x1 : ℚ
  y1 : ℚ
  x2 : ℚ
  y2 : ℚ
deriving Repr, DecidableEq

/-- Modelled from the spec: `F.landmarks_tool.project_to_bboxes`;
spec 4.1 `project_to_box(points) -> box`, "box = (min_x, min_y, max_x,
max_y) over all points; any extra per-point columns are dropped"
(one enclosing box, kept as a one-row box matrix; an empty point set
gives an empty matrix). -/
def project_to_bboxes (pts : Landmarks) : List Box :=
  match pts with
  | [] => []
  | p :: rest =>
    [{ x1 := rest.foldl (fun a q => min a q.1) p.1,
       y1 := rest.foldl (fun a q => min a q.2) p.2,
       x2 := rest.foldl (fun a q => max a q.1) p.1,
       y2 := rest.foldl (fun a q => max a q.2) p.2 }]

/-- Clamp a coordinate into an interval. -/
def clampQ (lo hi v : ℚ) : ℚ := max lo (min v hi)

/-- Modelled from the spec: `F.landmarks_tool.reproject_to_landmarks`;
spec 4.1 `reproject_to_points(box, canvas_w, canvas_h) -> points`,
"canonical 4- or N-point reconstruction from a box, clipped so results
stay within [0, canvas_w] x [0, canvas_h]": every box contributes its
four corners in the fixed corner order (top-left, top-right,
bottom-left, bottom-right); when no canvas bounds are supplied (the
call at line 1139 passes none) no clipping happens. -/
def reproject_to_landmarks (boxes : List Box) (bounds : Option (ℚ × ℚ)) : Landmarks :=
  boxes.flatMap (fun b =>
    let pts : Landmarks := [(b.x1, b.y1), (b.x2, b.y1), (b.x1, b.y2), (b.x2, b.y2)]
    match bounds with
    | none => pts
    | some (cw, ch) => pts.map (fun p => (clampQ 0 cw p.1, clampQ 0 ch p.2)))

/-- The eight corner values of a box in the fixed corner order. -/
structure Corners8 where
  x1 : ℚ
  y1 : ℚ
  x2 : ℚ
  y2 : ℚ
  x3 : ℚ
  y3 : ℚ
  x4 : ℚ
  y4 : ℚ
deriving Repr, DecidableEq

/-- Modelled from the spec: `F.get_corners`; spec 4.1 `corners(box) ->
8 values`, "the four corner points of the box in a fixed order
(top-left, top-right, bottom-left, bottom-right)". -/
def get_corners (b : Box) : Corners8 :=
  { x1 := b.x1, y1 := b.y1, x2 := b.x2, y2 := b.y1,
    x3 := b.x1, y3 := b.y2, x4 := b.x2, y4 := b.y2 }

/-- Area of a box. -/
def boxArea (b : Box) : ℚ := (b.x2 - b.x1) * (b.y2 - b.y1)

/-- Modelled from the spec: `F.clip_box(box, canvas_bounds,
min_area_fraction)`; spec 4.1: "intersects box with canvas bounds; if
resulting area falls below `min_area_fraction` of the original box
area" the box is degenerate, and per spec 4.1/7 the caller detects the
collapse through a landmark count mismatch, so degenerate boxes are
removed from the matrix. `bounds` is `[lx, ly, ux, uy]`. -/
def clip_box (boxes : List Box) (bounds : ℚ × ℚ × ℚ × ℚ) (alpha : ℚ) : List Box :=
  let lx := bounds.1
  let ly := bounds.2.1
  let ux := bounds.2.2.1
  let uy := bounds.2.2.2
  boxes.filterMap (fun b =>
    let c : Box :=
      { x1 := clampQ lx ux b.x1, y1 := clampQ ly uy b.y1,
        x2 := clampQ lx ux b.x2, y2 := clampQ ly uy b.y2 }
    if alpha * boxArea b ≤ boxArea c then some c else none)

/-- The landmark path of `LandmarksResize.__call__` (lines 482-527):
project the points to a one-row box matrix, scale the box coordinates
(letterbox branch: shared scale plus the symmetric padding offset with
float floor-division `// 2`; plain branch: per-axis scales), and
reproject against the shape of the resized image returned by the
letterbox function. -/
def resize_new_landmarks (letterboxFn : NpImage → ℕ × ℕ → NpImage)
    (size : ℕ × ℕ) (keep_aspect : Bool) (img : NpImage) (pts : Landmarks) : Landmarks :=
  let w : ℚ := (npWidth img : ℚ)
  let h : ℚ := (npHeight img : ℚ)
  let new_img := letterboxFn (astypeU8 img) size
  let boxes := project_to_bboxes pts
  if keep_aspect then
    let scale : ℚ := min ((size.2 : ℚ) / h) ((size.1 : ℚ) / w)
    let boxes := boxes.map (fun b =>
      { x1 := b.x1 * scale, y1 := b.y1 * scale, x2 := b.x2 * scale, y2 := b.y2 * scale : Box })
    let new_w := scale * w
    let new_h := scale * h
    let del_h : ℚ := (Rat.floor (((size.2 : ℚ) - new_h) / 2) : ℤ)
    let del_w : ℚ := (Rat.floor (((size.1 : ℚ) - new_w) / 2) : ℤ)
    let boxes := boxes.map (fun b =>
      { x1 := b.x1 + del_w, y1 := b.y1 + del_h, x2 := b.x2 + del_w, y2 := b.y2 + del_h : Box })
    reproject_to_landmarks boxes (some ((npWidth new_img : ℚ), (npHeight new_img : ℚ)))
  else
    let scale_x : ℚ := (size.1 : ℚ) / w
    let scale_y : ℚ := (size.2 : ℚ) / h
    let boxes := boxes.map (fun b =>
      { x1 := b.x1 * scale_x, y1 := b.y1 * scale_y,
        x2 := b.x2 * scale_x, y2 := b.y2 * scale_y : Box })
    reproject_to_landmarks boxes (some ((npWidth new_img : ℚ), (npHeight new_img : ℚ)))

/-- The scale factors `LandmarksResize.__call__` stores in its affine
record (`self.scale_x`, `self.scale_y`). -/
def resize_scales (size : ℕ × ℕ) (keep_aspect : Bool) (img : NpImage) : ℚ × ℚ :=
  let w : ℚ := (npWidth img : ℚ)
  let h : ℚ := (npHeight img : ℚ)
  if keep_aspect then
    let scale : ℚ := min ((size.2 : ℚ) / h) ((size.1 : ℚ) / w)
    (scale, scale)
  else
    ((size.1 : ℚ) / w, (size.2 : ℚ) / h)

/-- `LandmarksResize.__call__` (lines 482-535): resize the image with
the chosen letterbox function (a collaborator from the absent
`functional` module, taken as a parameter), rebuild the landmarks from
the scaled box matrix, record the scales, raise `LandmarkMissError`
when the rebuilt landmark count differs from the input count, and only
then set the applied flag and return. -/
def landmarksResize (letterboxFn : NpImage → ℕ × ℕ → NpImage)
    (size : ℕ × ℕ) (keep_aspect : Bool) (st : AffineRecord)
    (img : NpImage) (pts : Landmarks) :
    AffineRecord × Except String (NpImage × Landmarks) :=
  let new_img := letterboxFn (astypeU8 img) size
  let num_landmarks := pts.length
  let new_landmarks := resize_new_landmarks letterboxFn size keep_aspect img pts
  let sc := resize_scales size keep_aspect img
  let st1 := { st with scale_x := sc.1, scale_y := sc.2 }
  if new_landmarks.length ≠ num_landmarks then
    (st1, .error "LandmarksResize LandmarkMissError")
  else
    ({ st1 with flag := true }, .ok (astypeU8 new_img, new_landmarks))

/-- `LandmarksRandomScale.__call__` (lines 858-897): probability gate
(`clear_affine` and identity return when the uniform draw `r` exceeds
`prob`), otherwise resize the image by `1 + scale` factors (`cv2.resize`
taken as a parameter; with `diff` false the y factor copies the x
factor), scale the landmark columns, record the scales, check the
landmark count, set the flag. The random draws `r`, `sx`, `sy` are
explicit arguments. -/
def landmarksRandomScale (resizeFn : NpImage → ℚ → ℚ → NpImage)
    (prob : ℚ) (diff : Bool) (st : AffineRecord) (r sx sy : ℚ)
    (img : NpImage) (pts : Landmarks) :
    AffineRecord × Except String (NpImage × Landmarks) :=
  if r > prob then
    (clear_affine st, .ok (astypeU8 img, pts))
  else
    let num_landmarks := pts.length
    let scale_x := sx
    let scale_y := if diff then sy else sx
    let resize_scale_x := 1 + scale_x
    let resize_scale_y := 1 + scale_y
    let new_img := resizeFn img resize_scale_x resize_scale_y
    let new_landmarks := pts.map (fun p => (p.1 * resize_scale_x, p.2 * resize_scale_y))
    let st1 := { st with scale_x := resize_scale_x, scale_y := resize_scale_y }
    if new_landmarks.length ≠ num_landmarks then
      (st1, .error "LandmarksRandomScale LandmarkMissError")
    else
      ({ st1 with flag := true }, .ok (astypeU8 new_img, new_landmarks))

/-- The landmark path of `LandmarksRandomRotate.__call__`
(lines 1036-1068): box projection, corner extraction, corner rotation
(`F.rotate_box`, absent from src, taken as a parameter), new box from
the rotated top-left and bottom-right corners, rescale back to the
original canvas, clip with threshold 0.0025, reproject. `rotateImFn`
models `F.rotate_im` and `cvResizeFn` models `cv2.resize`. -/
def rotate_new_landmarks (rotateImFn : NpImage → ℚ → NpImage)
    (rotateBoxFn : Corners8 → ℚ → ℚ → ℚ → ℕ → ℕ → Corners8)
    (angle : ℚ) (img : NpImage) (pts : Landmarks) : Landmarks :=
  let w := npWidth img
  let h := npHeight img
  let cx : ℚ := (w / 2 : ℕ)
  let cy : ℚ := (h / 2 : ℕ)
  let new_img0 := rotateImFn img angle
  let boxes := project_to_bboxes pts
  let corners := boxes.map get_corners
  let corners := corners.map (fun c => rotateBoxFn c angle cx cy h w)
  let new_boxes := corners.map (fun c => { x1 := c.x1, y1 := c.y1, x2 := c.x4, y2 := c.y4 : Box })
  let scale_factor_x : ℚ := (npWidth new_img0 : ℚ) / (w : ℚ)
  let scale_factor_y : ℚ := (npHeight new_img0 : ℚ) / (h : ℚ)
  let new_boxes := new_boxes.map (fun b =>
    { x1 := b.x1 / scale_factor_x, y1 := b.y1 / scale_factor_y,
      x2 := b.x2 / scale_factor_x, y2 := b.y2 / scale_factor_y : Box })
  let clipped := clip_box new_boxes (0, 0, (w : ℚ), (h : ℚ)) 0.0025
  reproject_to_landmarks clipped (some ((w : ℚ), (h : ℚ)))

/-- `LandmarksRandomRotate.__call__` (lines 1024-1081): probability
gate, then rotate the canvas, rebuild the landmarks along the box path,
record the inverse rescale factors, check the landmark count
(`LandmarkMissError` on mismatch), set the flag. The sampled angle and
the uniform draw `r` are explicit arguments. -/
def landmarksRandomRotate (rotateImFn : NpImage → ℚ → NpImage)
    (rotateBoxFn : Corners8 → ℚ → ℚ → ℚ → ℕ → ℕ → Corners8)
    (cvResizeFn : NpImage → ℕ × ℕ → NpImage)
    (prob : ℚ) (st : AffineRecord) (r angle : ℚ)
    (img : NpImage) (pts : Landmarks) :
    AffineRecord × Except String (NpImage × Landmarks) :=
  if r > prob then
    (clear_affine st, .ok (astypeU8 img, pts))
  else
    let w := npWidth img
    let h := npHeight img
    let num_landmarks := pts.length
    let new_img0 := rotateImFn img angle
    let scale_factor_x : ℚ := (npWidth new_img0 : ℚ) / (w : ℚ)
    let scale_factor_y : ℚ := (npHeight new_img0 : ℚ) / (h : ℚ)
    let new_img := cvResizeFn new_img0 (w, h)
    let new_landmarks := rotate_new_landmarks rotateImFn rotateBoxFn angle img pts
    let st1 := { st with scale_x := 1 / scale_factor_x, scale_y := 1 / scale_factor_y }
    if new_landmarks.length ≠ num_landmarks then
      (st1, .error "LandmarksRandomRotate LandmarkMissError")
    else
      ({ st1 with flag := true }, .ok (astypeU8 new_img, new_landmarks))

/-- Python slice `a[lo:hi]` for nonnegative bounds. -/
def pySlice (lo hi : ℤ) (xs : List α) : List α :=
  (xs.drop lo.toNat).take (hi.toNat - lo.toNat)

/-- `LandmarksClip.__call__` (lines 571-610): crop the enclosure box of
the points with proportional padding (Python `int()` truncation and the
`np.maximum`/`np.minimum` clamps of lines 592-595), shift the points,
then — when a `target_size` was configured — evaluate
`self._resize_op(new_img, new_landmarks)` and unpack its 2-tuple result
into THREE variables (line 604), which raises `ValueError` whenever the
inner resize itself did not already raise. `stR` is the affine record
of the inner `LandmarksResize` member. An empty point set makes
`np.min` raise (modelled as an error). -/
def landmarksClip (letterboxFn : NpImage → ℕ × ℕ → NpImage)
    (width_pad height_pad : ℚ) (target_size : Option (ℕ × ℕ)) (keep_aspect : Bool)
    (st stR : AffineRecord) (img : NpImage) (pts : Landmarks) :
    AffineRecord × Except String (NpImage × Landmarks) :=
  match pts with
  | [] => (st, .error "ValueError: zero-size array to reduction operation")
  | p :: rest =>
    let x_min := rest.foldl (fun a q => min a q.1) p.1
    let x_max := rest.foldl (fun a q => max a q.1) p.1
    let y_min := rest.foldl (fun a q => min a q.2) p.2
    let y_max := rest.foldl (fun a q => max a q.2) p.2
    let h := npHeight img
    let w := npWidth img
    let lh := |y_max - y_min|
    let lw := |x_max - x_min|
    let left : ℤ := max (pyInt x_min - pyInt (lw * width_pad)) 0
    let right : ℤ := min (pyInt x_max + pyInt (lw * width_pad)) (w : ℤ)
    let top : ℤ := max (pyInt y_min - pyInt (lh * height_pad)) 0
    let bottom : ℤ := min (pyInt y_max + pyInt (lh * height_pad)) (h : ℤ)
    let new_img : NpImage := (pySlice top bottom img).map (fun row => pySlice left right row)
    let new_landmarks := pts.map (fun q => (q.1 - (left : ℚ), q.2 - (top : ℚ)))
    match target_size with
    | some sz =>
      match (landmarksResize letterboxFn sz keep_aspect stR new_img new_landmarks).2 with
      | .error e => (st, .error e)
      | .ok _ => (st, .error "ValueError: not enough values to unpack, expected 3 got 2")
    | none => ({ st with flag := true }, .ok (astypeU8 new_img, new_landmarks))

/-- Overwrite the rectangle `[x0, x1) x [y0, y1)` of `img` with the
corresponding pixels of `patch` (numpy slice assignment
`img[y0:y1, x0:x1, :] = patch[:, :, :]`). -/
def overwriteRect (img patch : NpImage) (x0 y0 x1 y1 : ℕ) : NpImage :=
  img.mapIdx (fun i row =>
    if y0 ≤ i ∧ i < y1 then
      row.mapIdx (fun j px =>
        if x0 ≤ j ∧ j < x1 then (patch.getD (i - y0) []).getD (j - x0) [] else px)
    else row)

/-- `LandmarksRandomPatches._random_patch_img` (lines 1494-1511): clamp
the patch shape to the image shape, draw a position (`dx`, `dy` model
the two `np.random.randint` draws, reduced modulo their admissible
range), paste the patch, return image and corner. -/
def random_patch_img (dx dy : ℕ) (img patch : NpImage) :
    NpImage × List ℕ :=
  let h := npHeight img
  let w := npWidth img
  let patch_h := min (npHeight patch) h
  let patch_w := min (npWidth patch) w
  let x0 := dx % (w - patch_w + 1)
  let y0 := dy % (h - patch_h + 1)
  let x1 := min (x0 + patch_w) w
  let y1 := min (y0 + patch_h) h
  (astypeU8 (overwriteRect img patch x0 y0 x1 y1), [x0, y0, x1, y1])

/-- `LandmarksRandomPatches.__call__` (lines 1427-1459): probability
gate; the patch-shape draws feed `_random_select_patch`, whose outcome
(decoded asset or decode failure) is the `patch` argument; when the
selected asset failed to decode the code sets the flag, evaluates the
result tuple WITHOUT returning it (line 1454 lacks `return`) and falls
through into `_random_patch_img(img, None)`, which raises
`AttributeError` at `patch.shape`; with a decoded patch it pastes the
patch and returns the landmarks untouched. -/
def landmarksRandomPatches (prob : ℚ) (st : AffineRecord) (r : ℚ)
    (patch : Option NpImage) (dx dy : ℕ)
    (img : NpImage) (pts : Landmarks) :
    AffineRecord × Except String (NpImage × Landmarks) :=
  if r > prob then
    (clear_affine st, .ok (astypeU8 img, pts))
  else
    match patch with
    | none =>
      ({ st with flag := true },
        .error "AttributeError: NoneType object has no attribute shape")
    | some pt =>
      let res := random_patch_img dx dy img pt
      ({ st with flag := true }, .ok (res.1, pts))

/-- `LandmarksRandomPatchesWithAlpha._random_patch_img_with_alpha`
(lines 1619-1641): like the plain paste, but the pasted rectangle is
`cv2.addWeighted(patch, alpha, img_patch, 1 - alpha, 0)`; the blend is
the external cv2 collaborator, taken as the `blendFn` parameter. -/
def random_patch_img_with_alpha (blendFn : NpImage → ℚ → NpImage → ℚ → NpImage)
    (dx dy : ℕ) (img patch : NpImage) (alpha : ℚ) :
    NpImage × List ℕ :=
  let h := npHeight img
  let w := npWidth img
  let patch_h := min (npHeight patch) h
  let patch_w := min (npWidth patch) w
  let x0 := dx % (w - patch_w + 1)
  let y0 := dy % (h - patch_h + 1)
  let x1 := min (x0 + patch_w) w
  let y1 := min (y0 + patch_h) h
  let img_patch : NpImage := (pySlice y0 y1 img).map (fun row => pySlice x0 x1 row)
  let fuse_patch := blendFn patch alpha img_patch (1 - alpha)
  (astypeU8 (overwriteRect img fuse_patch x0 y0 x1 y1), [x0, y0, x1, y1])

/-- `LandmarksRandomPatchesWithAlpha.__call__` (lines 1551-1585): same
structure as `LandmarksRandomPatches.__call__`, including the missing
`return` on the decode-failure branch (line 1578), which therefore also
falls through into `_random_patch_img_with_alpha(img, None, alpha)` and
raises `AttributeError` at `patch.shape`. -/
def landmarksRandomPatchesWithAlpha (blendFn : NpImage → ℚ → NpImage → ℚ → NpImage)
    (prob : ℚ) (st : AffineRecord) (r : ℚ)
    (patch : Option NpImage) (alpha : ℚ) (dx dy : ℕ)
    (img : NpImage) (pts : Landmarks) :
    AffineRecord × Except String (NpImage × Landmarks) :=
  if r > prob then
    (clear_affine st, .ok (astypeU8 img, pts))
  else
    match patch with
    | none =>
      ({ st with flag := true },
        .error "AttributeError: NoneType object has no attribute shape")
    | some pt =>
      let res := random_patch_img_with_alpha blendFn dx dy img pt alpha
      ({ st with flag := true }, .ok (res.1, pts))

/-- `LandmarksRandomBackgroundWithAlpha._random_background_img_with_alpha`
(lines 1738-1750): resize the background to the image shape when needed
(external `cv2.resize` parameter) and alpha-blend it with the image
(external `cv2.addWeighted` parameter). -/
def random_background_img_with_alpha (cvResizeFn : NpImage → ℕ × ℕ → NpImage)
    (blendFn : NpImage → ℚ → NpImage → ℚ → NpImage)
    (img background : NpImage) (alpha : ℚ) : NpImage :=
  let bg :=
    if npHeight background ≠ npHeight img ∨ npWidth background ≠ npWidth img then
      cvResizeFn background (npWidth img, npHeight img)
    else background
  astypeU8 (blendFn bg alpha img (1 - alpha))

/-- `LandmarksRandomBackgroundWithAlpha.__call__` (lines 1671-1694):
probability gate; the background selection outcome (decoded asset or
decode failure) is the `background` argument; unlike the two patch
transforms, the decode-failure branch DOES return (lines 1686-1688):
flag set and inputs returned unchanged; otherwise blend and return. -/
def landmarksRandomBackgroundWithAlpha (cvResizeFn : NpImage → ℕ × ℕ → NpImage)
    (blendFn : NpImage → ℚ → NpImage → ℚ → NpImage)
    (prob : ℚ) (st : AffineRecord) (r alpha : ℚ)
    (background : Option NpImage)
    (img : NpImage) (pts : Landmarks) :
    AffineRecord × Except String (NpImage × Landmarks) :=
  if r > prob then
    (clear_affine st, .ok (astypeU8 img, pts))
  else
    match background with
    | none =>
      ({ st with flag := true }, .ok (astypeU8 img, pts))
    | some bg =>
      let new_img := random_background_img_with_alpha cvResizeFn blendFn img bg alpha
      ({ st with flag := true }, .ok (astypeU8 new_img, pts))

/-! Supporting lemmas. -/

theorem astypeU8_eq_self {img : NpImage} (h : NpWf img) : astypeU8 img = img := by
  unfold astypeU8
  refine List.map_congr_left (fun row hrow => ?_) |>.trans (List.map_id _)
  refine (List.map_congr_left (fun px hpx => ?_)).trans (List.map_id _)
  refine (List.map_congr_left (fun c hc => ?_)).trans (List.map_id _)
  exact Nat.mod_eq_of_lt (h row hrow px hpx c hc)

theorem pixMap_pixMap (f g : ℚ → ℚ) (img : QImage) :
    pixMap f (pixMap g img) = pixMap (fun v => f (g v)) img := by
  simp [pixMap, List.map_map, Function.comp]

theorem pixMap_id_of (f : ℚ → ℚ) (h : ∀ v, f v = v) (img : QImage) :
    pixMap f img = img := by
  have hf : f = fun v => v := funext h
  subst hf
  simp [pixMap]

theorem applyTransformTo_eq_runIsolated_selectTrue
    (ts : List Tr) (flags : List Bool) (p : NpImage × Landmarks) :
    applyTransformTo ts flags p = runIsolated (selectTrue ts flags) p := by
  induction ts generalizing flags p with
  | nil => cases flags <;> rfl
  | cons t ts ih =>
    cases flags with
    | nil => rfl
    | cons fl flags =>
      cases fl with
      | true =>
        simp only [applyTransformTo, selectTrue, if_true, runIsolated]
        cases t p with
        | error e => simp [ih]
        | ok q => simp [ih]
      | false =>
        simp only [applyTransformTo, selectTrue, Bool.false_eq_true, if_false, ih]

theorem NpWf_map_reverse {img : NpImage} (h : NpWf img) :
    NpWf (img.map List.reverse) := by
  intro row hrow px hpx c hc
  rcases List.mem_map.mp hrow with ⟨row0, hrow0, rfl⟩
  exact h row0 hrow0 px (List.mem_reverse.mp hpx) c hc

theorem npWidth_map_reverse (img : NpImage) :
    npWidth (img.map List.reverse) = npWidth img := by
  cases img <;> simp [npWidth]

theorem npWidth_astypeU8 (img : NpImage) :
    npWidth (astypeU8 img) = npWidth img := by
  cases img <;> simp [npWidth, astypeU8]

/-- A concrete always-raising child transform. -/
def failTr : Tr := fun _ => .error "boom"

/-- A concrete always-succeeding child transform that reports applied. -/
def okTr : Tr := fun p => .ok (p.1, p.2, true)

/-! Claim theorems. -/

/-- Claim C1, counterexample: a pipeline with a single always-raising
child ends with an EMPTY flag sequence — the orchestrator appends no
(false) flag for the failing step, so the flag sequence does not have
one entry per child transform. -/
theorem compose_failing_child_appends_no_flag :
    (composeApply [failTr] ([], [])).2 = [] ∧ ([] : List Bool) ≠ [false] := by
  exact ⟨rfl, by decide⟩

/-- Claim C1 (amended): when a child raises, the orchestrator skips only
that child and continues with the pre-failure image/landmarks, but
appends NO flag for the failing step (on success it appends the child's
applied flag); the pipeline is never aborted, and after apply the flag
sequence has exactly one entry per child that did not raise (flag count
plus failure count equals the child count). -/
theorem compose_apply_failure_isolation (t : Tr) (ts : List Tr) (p : NpImage × Landmarks) :
    (∀ e, t p = Except.error e → composeApply (t :: ts) p = composeApply ts p) ∧
    (∀ i l fl, t p = Except.ok (i, l, fl) →
      composeApply (t :: ts) p
        = ((composeApply ts (i, l)).1, fl :: (composeApply ts (i, l)).2)) ∧
    (composeApply ts p).2.length + composeFailCount ts p = ts.length := by
  refine ⟨?_, ?_, ?_⟩
  · intro e he
    simp only [composeApply, he]
  · intro i l fl hok
    simp only [composeApply, hok]
  · induction ts generalizing p with
    | nil => rfl
    | cons t2 ts2 ih =>
      simp only [composeApply, composeFailCount]
      cases t2 p with
      | error e =>
        have h2 := ih p
        simp only [List.length_cons]
        omega
      | ok q =>
        obtain ⟨i, l, fl⟩ := q
        have h2 := ih (i, l)
        simp only [List.length_cons]
        omega

/-- Claim C1 witness: the amended characterization evaluated on a
concrete two-child pipeline whose first child raises. -/
theorem compose_apply_failure_isolation_witness :
    composeApply [failTr, okTr] ([], []) = composeApply [okTr] ([], []) :=
  (compose_apply_failure_isolation failTr [okTr] ([], [])).1 "boom" rfl

/-- Claim C3, counterexample: a numpy image together with tensor
landmarks (mixed representations) is NOT rejected by either wrapper —
both wrappers process the call and return ok. -/
theorem autodtye_mixed_not_rejected :
    autodtye_array (fun q => q) { rep := BufRep.nparray, val := 0 }
        { rep := BufRep.tensor, val := 1 }
      = Except.ok ({ rep := BufRep.tensor, val := 0 }, { rep := BufRep.tensor, val := 1 }) ∧
    autodtye_tensor (fun q => q) { rep := BufRep.nparray, val := 0 }
        { rep := BufRep.tensor, val := 1 }
      = Except.ok ({ rep := BufRep.nparray, val := 0 }, { rep := BufRep.nparray, val := 1 }) := by
  exact ⟨rfl, rfl⟩

/-- Claim C3 (amended): mixed-representation input passes the wrappers'
type assert (both arguments are valid buffer kinds) and is processed:
both arguments are converted to the wrapper's canonical representation,
the wrapped function runs, and both results are converted to the other
representation; only an argument that is neither an array nor a tensor
is rejected with a type error. -/
theorem autodtye_mixed_processed (f : Buf × Buf → Buf × Buf) (img lmks : Buf) :
    (img.rep = BufRep.nparray → lmks.rep = BufRep.tensor →
      autodtye_array f img lmks
        = Except.ok (to_tensor (f (to_numpy img, to_numpy lmks)).1,
            to_tensor (f (to_numpy img, to_numpy lmks)).2)) ∧
    (img.rep = BufRep.nparray → lmks.rep = BufRep.tensor →
      autodtye_tensor f img lmks
        = Except.ok (to_numpy (f (to_tensor img, to_tensor lmks)).1,
            to_numpy (f (to_tensor img, to_tensor lmks)).2)) ∧
    ((img.rep = BufRep.other ∨ lmks.rep = BufRep.other) →
      autodtye_array f img lmks = Except.error "Error dtype, must be np.ndarray or Tensor!") := by
  refine ⟨?_, ?_, ?_⟩
  · intro hi hl
    simp [autodtye_array, hi, hl]
  · intro hi hl
    simp [autodtye_tensor, hi, hl]
  · intro hother
    simp [autodtye_array, hother]

/-- Claim C3 witness: the amended characterization evaluated on a
concrete mixed pair and a concrete invalid pair. -/
theorem autodtye_mixed_processed_witness :
    autodtye_array (fun q => q) { rep := BufRep.nparray, val := 7 }
        { rep := BufRep.tensor, val := 9 }
      = Except.ok ({ rep := BufRep.tensor, val := 7 }, { rep := BufRep.tensor, val := 9 }) ∧
    autodtye_array (fun q => q) { rep := BufRep.other, val := 7 }
        { rep := BufRep.tensor, val := 9 }
      = Except.error "Error dtype, must be np.ndarray or Tensor!" := by
  constructor
  · exact (autodtye_mixed_processed (fun q => q)
      { rep := BufRep.nparray, val := 7 } { rep := BufRep.tensor, val := 9 }).1 rfl rfl
  · exact (autodtye_mixed_processed (fun q => q)
      { rep := BufRep.other, val := 7 } { rep := BufRep.tensor, val := 9 }).2.2 (Or.inl rfl)

/-- Claim C7: `apply_affine_to` applies only the recorded linear part,
first subtracting the recorded translate (when the translate switch is
on), then multiplying by the recorded per-axis scale (when the scale
switch is on); the rotate switch is a no-op, and with both switches off
the points are untouched. -/
theorem apply_affine_to_linear_part (st : AffineRecord) (pts : Landmarks) (rot rot' : Bool) :
    apply_affine_to st pts true true rot
      = pts.map (fun p => ((p.1 - st.trans_x) * st.scale_x, (p.2 - st.trans_y) * st.scale_y)) ∧
    apply_affine_to st pts false true rot
      = pts.map (fun p => (p.1 - st.trans_x, p.2 - st.trans_y)) ∧
    apply_affine_to st pts true false rot
      = pts.map (fun p => (p.1 * st.scale_x, p.2 * st.scale_y)) ∧
    apply_affine_to st pts false false rot = pts ∧
    apply_affine_to st pts true true rot = apply_affine_to st pts true true rot' := by
  refine ⟨?_, rfl, rfl, rfl, rfl⟩
  simp [apply_affine_to, List.map_map, Function.comp]

/-- Claim C8: after an `apply` on pair A in which no child failed (the
recorded flag sequence has one entry per child), `apply_transform_to`
on a second pair B re-invokes exactly the children whose recorded flag
is true, in the recorded order, with per-step failure isolation. -/
theorem replay_fidelity (ts : List Tr) (pA pB : NpImage × Landmarks)
    (hnofail : (composeApply ts pA).2.length = ts.length) :
    applyTransformTo ts (composeApply ts pA).2 pB
      = runIsolated (selectTrue ts (composeApply ts pA).2) pB := by
  exact applyTransformTo_eq_runIsolated_selectTrue ts (composeApply ts pA).2 pB

/-- Claim C8 witness: replay fidelity on a concrete one-child pipeline
with an always-applying child. -/
theorem replay_fidelity_witness :
    applyTransformTo [okTr] (composeApply [okTr] ([], [])).2 ([[[1]]], [(1, 1)])
      = runIsolated (selectTrue [okTr] (composeApply [okTr] ([], [])).2)
          ([[[1]]], [(1, 1)]) :=
  replay_fidelity [okTr] ([], []) ([[[1]]], [(1, 1)]) rfl

/-- Claim C10: with mean 127.5 and std 128, `LandmarksUnNormalize`
composed after `LandmarksNormalize` is the identity on the image, and
both transforms leave the landmark values unchanged. -/
theorem normalize_unnormalize_roundtrip (st1 st2 : AffineRecord) (img : QImage) (pts : Landmarks) :
    (landmarksUnNormalize 127.5 128 st2
        (landmarksNormalize 127.5 128 st1 img pts).2.1
        (landmarksNormalize 127.5 128 st1 img pts).2.2).2.1 = img ∧
    (landmarksNormalize 127.5 128 st1 img pts).2.2 = pts ∧
    (landmarksUnNormalize 127.5 128 st2 img pts).2.2 = pts := by
  refine ⟨?_, rfl, rfl⟩
  show pixMap _ (pixMap _ img) = img
  rw [pixMap_pixMap]
  refine pixMap_id_of _ (fun v => ?_) img
  have h128 : (128 : ℚ) ≠ 0 := by norm_num
  field_simp

/-- Claim C9: the fixed horizontal flip is an involution on image and
points for 8-bit images; a single application moves every x-coordinate
by `x += 2 * (w / 2 - x)` and leaves y-coordinates, point count and
point order unchanged. -/
theorem horizontal_flip_involution (st st' : AffineRecord) (img : NpImage) (pts : Landmarks)
    (hwf : NpWf img) :
    (landmarksHorizontalFlip st' (landmarksHorizontalFlip st img pts).2.1
        (landmarksHorizontalFlip st img pts).2.2).2.1 = img ∧
    (landmarksHorizontalFlip st' (landmarksHorizontalFlip st img pts).2.1
        (landmarksHorizontalFlip st img pts).2.2).2.2 = pts ∧
    (landmarksHorizontalFlip st img pts).2.2
      = pts.map (fun p => (p.1 + 2 * ((npWidth img : ℚ) / 2 - p.1), p.2)) ∧
    ((landmarksHorizontalFlip st img pts).2.2).map Prod.snd = pts.map Prod.snd ∧
    ((landmarksHorizontalFlip st img pts).2.2).length = pts.length := by
  have hrev : (img.map List.reverse).map List.reverse = img := by
    rw [List.map_map]
    exact (List.map_congr_left (fun r _ => List.reverse_reverse r)).trans (List.map_id img)
  have h1 : (landmarksHorizontalFlip st img pts).2.1 = img.map List.reverse := by
    show astypeU8 (img.map List.reverse) = img.map List.reverse
    exact astypeU8_eq_self (NpWf_map_reverse hwf)
  have h2 : (landmarksHorizontalFlip st img pts).2.2
      = pts.map (fun p => (p.1 + 2 * ((npWidth img : ℚ) / 2 - p.1), p.2)) := rfl
  refine ⟨?_, ?_, h2, ?_, ?_⟩
  · show astypeU8 (((landmarksHorizontalFlip st img pts).2.1).map List.reverse) = img
    rw [h1, hrev]
    exact astypeU8_eq_self hwf
  · show ((landmarksHorizontalFlip st img pts).2.2).map
        (fun p => (p.1 + 2 * ((npWidth (landmarksHorizontalFlip st img pts).2.1 : ℚ) / 2 - p.1),
          p.2)) = pts
    rw [h1, npWidth_map_reverse, h2, List.map_map]
    refine (List.map_congr_left (fun p _ => ?_)).trans (List.map_id pts)
    obtain ⟨x, y⟩ := p
    simp only [Function.comp_apply, id_eq, Prod.mk.injEq, and_true]
    ring
  · rw [h2, List.map_map]
    exact List.map_congr_left (fun p _ => rfl)
  · rw [h2]
    exact List.length_map pts _

/-- Claim C9 witness: the involution evaluated on a concrete 2x2 image
and two concrete points. -/
theorem horizontal_flip_involution_witness :
    (landmarksHorizontalFlip AffineRecord.init
        (landmarksHorizontalFlip AffineRecord.init [[[1], [2]], [[3], [4]]]
          [(0, 0), (2, 1)]).2.1
        (landmarksHorizontalFlip AffineRecord.init [[[1], [2]], [[3], [4]]]
          [(0, 0), (2, 1)]).2.2).2.1 = [[[1], [2]], [[3], [4]]] ∧
    (landmarksHorizontalFlip AffineRecord.init
        (landmarksHorizontalFlip AffineRecord.init [[[1], [2]], [[3], [4]]]
          [(0, 0), (2, 1)]).2.1
        (landmarksHorizontalFlip AffineRecord.init [[[1], [2]], [[3], [4]]]
          [(0, 0), (2, 1)]).2.2).2.2 = [(0, 0), (2, 1)] := by
  have h := horizontal_flip_involution AffineRecord.init AffineRecord.init
    [[[1], [2]], [[3], [4]]] [(0, 0), (2, 1)] (by decide)
  exact ⟨h.1, h.2.1⟩

/-- Claim C6: when the uniform draw exceeds the configured probability,
the probabilistic transforms reset their affine record to the identity
(rotation 0, scales 1, translations 0, flag false — exactly
`clear_affine`) and return the input image and landmarks unchanged. -/
theorem probability_gate_identity
    (resizeFn : NpImage → ℚ → ℚ → NpImage)
    (rotateImFn : NpImage → ℚ → NpImage)
    (rotateBoxFn : Corners8 → ℚ → ℚ → ℚ → ℕ → ℕ → Corners8)
    (cvResizeFn : NpImage → ℕ × ℕ → NpImage)
    (prob : ℚ) (diff : Bool) (st : AffineRecord) (r sx sy angle : ℚ)
    (patch : Option NpImage) (dx dy : ℕ)
    (img : NpImage) (pts : Landmarks)
    (hwf : NpWf img) (hr : r > prob) :
    landmarksRandomScale resizeFn prob diff st r sx sy img pts
      = (AffineRecord.init, Except.ok (img, pts)) ∧
    landmarksRandomRotate rotateImFn rotateBoxFn cvResizeFn prob st r angle img pts
      = (AffineRecord.init, Except.ok (img, pts)) ∧
    landmarksRandomPatches prob st r patch dx dy img pts
      = (AffineRecord.init, Except.ok (img, pts)) ∧
    clear_affine st = AffineRecord.init := by
  have ha := astypeU8_eq_self hwf
  refine ⟨?_, ?_, ?_, rfl⟩ <;>
    simp [landmarksRandomScale, landmarksRandomRotate, landmarksRandomPatches,
      hr, ha, clear_affine, AffineRecord.init]

/-- Claim C6 witness: the gate evaluated for a concrete draw 1 above a
concrete probability 1/2 on a concrete image. -/
theorem probability_gate_identity_witness :
    landmarksRandomScale (fun i _ _ => i) (1 / 2) true AffineRecord.init 1 0 0
        [[[5]]] [(1, 2)]
      = (AffineRecord.init, Except.ok ([[[5]]], [(1, 2)])) :=
  (probability_gate_identity (fun i _ _ => i) (fun i _ => i) (fun c _ _ _ _ _ => c)
    (fun i _ => i) (1 / 2) true AffineRecord.init 1 0 0 0 none 0 0
    [[[5]]] [(1, 2)] (by decide) (by norm_num)).1

/-- Claim C5: a `LandmarksClip` configured with a target size always
raises: the inner resize returns a 2-tuple but line 604 unpacks it into
three variables, so every invocation ends in an error (either the inner
resize's own error or the unpacking `ValueError`). -/
theorem landmarks_clip_chained_resize_always_raises
    (letterboxFn : NpImage → ℕ × ℕ → NpImage) (width_pad height_pad : ℚ)
    (sz : ℕ × ℕ) (keep_aspect : Bool) (st stR : AffineRecord)
    (img : NpImage) (pts : Landmarks) :
    ∃ e, (landmarksClip letterboxFn width_pad height_pad (some sz) keep_aspect
        st stR img pts).2 = Except.error e := by
  cases pts with
  | nil => exact ⟨_, rfl⟩
  | cons p rest =>
    simp only [landmarksClip]
    split
    · exact ⟨_, rfl⟩
    · exact ⟨_, rfl⟩

/-- Claim C4: evaluation of the three occlusion transforms on a decode
failure (`None` from the asset loader): the two patch transforms fall
through the flag-setting branch that lacks its `return` (lines 1454 and
1578) and raise `AttributeError` inside the paste helper, while the
background transform's decode-failure branch does return the input
unchanged. -/
theorem patch_decode_failure_behavior :
    landmarksRandomPatches 1 AffineRecord.init 0 none 0 0 [[[5]]] [(1, 2)]
      = ({ AffineRecord.init with flag := true },
          Except.error "AttributeError: NoneType object has no attribute shape") ∧
    landmarksRandomPatchesWithAlpha (fun _a _ b _ => b) 1 AffineRecord.init 0 none (1 / 2) 0 0
        [[[5]]] [(1, 2)]
      = ({ AffineRecord.init with flag := true },
          Except.error "AttributeError: NoneType object has no attribute shape") ∧
    landmarksRandomBackgroundWithAlpha (fun b _ => b) (fun _a _ b _ => b) 1 AffineRecord.init 0
        (1 / 2) none [[[5]]] [(1, 2)]
      = ({ AffineRecord.init with flag := true }, Except.ok ([[[5]]], [(1, 2)])) := by
  refine ⟨rfl, rfl, rfl⟩

/-- Claim C2: for the geometric transforms `LandmarksResize` and
`LandmarksRandomRotate`, a successful (non-raising) call returns
exactly as many landmarks as it received, and whenever the box
geometry rebuilds a different number of landmarks the call raises
`LandmarkMissError` instead of returning. -/
theorem geometric_count_guard
    (letterboxFn : NpImage → ℕ × ℕ → NpImage) (size : ℕ × ℕ) (keep_aspect : Bool)
    (rotateImFn : NpImage → ℚ → NpImage)
    (rotateBoxFn : Corners8 → ℚ → ℚ → ℚ → ℕ → ℕ → Corners8)
    (cvResizeFn : NpImage → ℕ × ℕ → NpImage)
    (prob : ℚ) (st : AffineRecord) (r angle : ℚ)
    (img : NpImage) (pts : Landmarks) :
    (∀ st2 out, landmarksResize letterboxFn size keep_aspect st img pts
        = (st2, Except.ok out) → out.2.length = pts.length) ∧
    ((resize_new_landmarks letterboxFn size keep_aspect img pts).length ≠ pts.length →
      (landmarksResize letterboxFn size keep_aspect st img pts).2
        = Except.error "LandmarksResize LandmarkMissError") ∧
    (∀ st2 out, landmarksRandomRotate rotateImFn rotateBoxFn cvResizeFn prob st r angle img pts
        = (st2, Except.ok out) → out.2.length = pts.length) ∧
    (r ≤ prob →
      (rotate_new_landmarks rotateImFn rotateBoxFn angle img pts).length ≠ pts.length →
      (landmarksRandomRotate rotateImFn rotateBoxFn cvResizeFn prob st r angle img pts).2
        = Except.error "LandmarksRandomRotate LandmarkMissError") := by
  refine ⟨?_, ?_, ?_, ?_⟩
  · intro st2 out h
    simp only [landmarksResize] at h
    split at h
    · exact absurd h (by simp)
    · rename_i hlen
      simp only [Prod.mk.injEq, Except.ok.injEq] at h
      obtain ⟨-, h2⟩ := h
      rw [← h2]
      exact not_ne_iff.mp hlen
  · intro hne
    simp [landmarksResize, if_pos hne]
  · intro st2 out h
    simp only [landmarksRandomRotate] at h
    split at h
    · simp only [Prod.mk.injEq, Except.ok.injEq] at h
      obtain ⟨-, h2⟩ := h
      rw [← h2]
    · split at h
      · exact absurd h (by simp)
      · rename_i hlen
        simp only [Prod.mk.injEq, Except.ok.injEq] at h
        obtain ⟨-, h2⟩ := h
        rw [← h2]
        exact not_ne_iff.mp hlen
  · intro hr hne
    simp [landmarksRandomRotate, if_neg (not_lt.mpr hr), if_pos hne]

/-- Claim C2 witness: the count guard evaluated on a concrete 2x2 image
with three landmarks, whose box geometry rebuilds four points: both the
resize and the rotate call answer with `LandmarkMissError`. -/
theorem geometric_count_guard_witness :
    (landmarksResize (fun i _ => i) (50, 50) false AffineRecord.init
        [[[0], [0]], [[3], [4]]] [(0, 0), (2, 0), (2, 2)]).2
      = Except.error "LandmarksResize LandmarkMissError" ∧
    (landmarksRandomRotate (fun i _ => i) (fun c _ _ _ _ _ => c) (fun i _ => i) 1
        AffineRecord.init 0 10 [[[0], [0]], [[3], [4]]] [(0, 0), (2, 0), (2, 2)]).2
      = Except.error "LandmarksRandomRotate LandmarkMissError" := by
  have h := geometric_count_guard (fun i _ => i) (50, 50) false (fun i _ => i)
    (fun c _ _ _ _ _ => c) (fun i _ => i) 1 AffineRecord.init 0 10
    [[[0], [0]], [[3], [4]]] [(0, 0), (2, 0), (2, 2)]
  refine ⟨h.2.1 (by decide), h.2.2.2 (by decide) ?_⟩
  norm_num [rotate_new_landmarks, project_to_bboxes, get_corners, clip_box, boxArea,
    clampQ, reproject_to_landmarks, npWidth, npHeight, List.filterMap_cons, max_def, min_def]
